import Mathlib

/-
Verification of the frame-lifecycle and GPU-resource-management core of the
aurora renderer.  The C++ sources are shallowly embedded: the deletion queue
is a list of closures replayed backwards (src/deletion_queue.hpp), and the
engine operations (init_swapchain, refresh_swapchain, start_frame,
finish_frame, immediate_submit, create_image, the App::run loop body) are
translated as explicit state-passing functions over an abstract engine state,
parameterised by an environment that fixes the result of each native call
and emitting an event trace that records the native calls in order.
-/

namespace Aurora

/-! ## Deletion queue (src/deletion_queue.hpp)

`m_queue` is a `std::vector` of closures; `add` is `emplace_back`, and
`delete_all` iterates from `rbegin()` to `rend()` executing each closure and
then calls `clear()`.  The embedding keeps the closures abstract: the queue
is a list in insertion order, `delete_all` returns the execution order
(the reverse of the stored order) together with the cleared queue, and
`runClosures` executes a list of closures against a state. -/

abbrev DeletionQueue (α : Type) : Type := List α

def DeletionQueue.empty {α : Type} : DeletionQueue α := []

/-- Source: `void add(std::function f)` appends the closure with `emplace_back`. -/
def DeletionQueue.add {α : Type} (q : DeletionQueue α) (f : α) : DeletionQueue α :=
  q ++ [f]

/-- Method `delete_all` executes the closures from the back of the vector to the
front and then clears the vector; the first component is the order in which
the closures are executed, the second the queue contents afterwards. -/
def DeletionQueue.delete_all {α : Type} (q : DeletionQueue α) :
    List α × DeletionQueue α :=
  (q.reverse, [])

/-- Execute a list of closures, in the given order, against a state. -/
def runClosures {α σ : Type} (run : α → σ → σ) (order : List α) (s : σ) : σ :=
  order.foldl (fun acc c => run c acc) s

/-- Helper: folding `add` (append of a singleton) over a list builds the list
itself after the accumulator. -/
theorem foldl_add_eq_append {α : Type} (l : List α) (acc : List α) :
    l.foldl (fun q f => q ++ [f]) acc = acc ++ l := by
  induction l generalizing acc with
  | nil => simp
  | cons x xs ih =>
    simp only [List.foldl_cons, ih]
    simp

/-- Helper: executing log-appending closures records exactly the execution
order. -/
theorem runClosures_log (order : List Nat) (s : List Nat) :
    runClosures (fun i acc => acc ++ [i]) order s = s ++ order := by
  unfold runClosures
  exact foldl_add_eq_append order s

/-- C2.  Deletion-queue LIFO order: after any sequence of `add` calls the
single `delete_all` executes the closures exactly in reverse insertion order
(witnessed both by the execution-order list and by the log produced when the
closures record their own identity) and leaves the queue empty. -/
theorem deletion_queue_lifo_order (ids : List Nat) :
    DeletionQueue.delete_all (ids.foldl DeletionQueue.add DeletionQueue.empty) =
        (ids.reverse, DeletionQueue.empty) ∧
      runClosures (fun i acc => acc ++ [i])
          (DeletionQueue.delete_all
            (ids.foldl DeletionQueue.add DeletionQueue.empty)).1 [] =
        ids.reverse := by
  have hq : ids.foldl DeletionQueue.add DeletionQueue.empty = ids := by
    show ids.foldl (fun q f => q ++ [f]) [] = ids
    simpa using foldl_add_eq_append ids []
  constructor
  · rw [hq]
    rfl
  · rw [hq]
    show runClosures (fun i acc => acc ++ [i]) ids.reverse [] = ids.reverse
    simpa using runClosures_log ids.reverse []

/-- C10.  Flush exactly-once: `delete_all` clears the queue, so a second
`delete_all` with no intervening `add` executes no closures and leaves the
queue empty, and a single flush executes each added closure exactly as many
times as it was added (count preserved between queue contents and execution
order). -/
theorem deletion_queue_flush_exactly_once (q : DeletionQueue Nat) :
    DeletionQueue.delete_all (DeletionQueue.delete_all q).2 =
        ([], DeletionQueue.empty) ∧
      (∀ x : Nat, ((DeletionQueue.delete_all q).1.count x) = q.count x) := by
  constructor
  · rfl
  · intro x
    show (q.reverse.count x) = q.count x
    simp [List.count_reverse]

/-! ## Engine model (src/engine.cpp, src/engine.hpp)

Native handles (swapchain, image views) are modelled as natural numbers
allocated from a fresh-handle counter.  Each fallible native call's result is
supplied by an environment record, and every native call performed is
recorded in an event trace. -/

/-- Subset of `VkResult` values relevant to the engine's control flow; the `VKERR`
macro treats every value other than `success` as an error. -/
inductive VkResult where
  | success
  | suboptimalKHR
  | errorOutOfDateKHR
  | errorDeviceLost
  deriving DecidableEq

/-- Value `std::numeric_limits<uint64_t>::max()`, the timeout passed to
`vkWaitForFences` and `vkAcquireNextImageKHR`. -/
def UINT64_MAX : Nat := 2 ^ 64 - 1

/-- Source: `static constexpr size_t NUM_FRAMES_IN_FLIGHT = 2;`. -/
def NUM_FRAMES_IN_FLIGHT : Nat := 2

/-- Identifies the owner of a fence or command buffer: one of the frame
slots, or the dedicated immediate-submission channel
(`m_immediate_commands`). -/
inductive ChanId where
  | frame (slot : Nat)
  | imm
  deriving DecidableEq

/-- One event per native call made by the engine operations. -/
inductive Event where
  | waitFences (fence : ChanId) (timeout : Nat)
  | resetFences (fence : ChanId)
  | slotQueueFlushed (slot : Nat)
  | acquireNextImage (timeout : Nat)
  | resetCommandBuffer (cb : ChanId)
  | beginCommandBuffer (cb : ChanId)
  | recordCommand (cb : ChanId) (i : Nat)
  | endCommandBuffer (cb : ChanId)
  | queueSubmit (waitSemCount signalSemCount : Nat) (fence : ChanId)
  | queuePresent (slot : Nat)
  | deviceWaitIdle
  | destroyImageView (h : Nat)
  | destroySwapchain (h : Nat)
  | createSwapchain (h : Nat)
  deriving DecidableEq

/-- Model of `struct Swapchain` of engine.hpp: generation counter, native handle and
per-image views (format/extent are irrelevant to the verified claims). -/
structure Swapchain where
  generation : Nat
  swapchain : Nat
  images : List Nat
  image_views : List Nat
  deriving DecidableEq

/-- The closures the engine registers in its deletion queues that touch the
swapchain: the guarded cleanup appended by `init_swapchain`, capturing
`this_generation` by value. -/
inductive EngineClosure where
  | swapchainCleanup (this_generation : Nat)
  deriving DecidableEq

/-- Abstract engine state: the swapchain, the round-robin frame index, the
signaled-state of each frame slot's fence, each slot's private deletion
queue, the process-wide deletion queue, the accumulated list of destroyed
native handles, and a fresh-handle counter. -/
structure EngineState where
  swapchain : Swapchain
  frame_idx : Nat
  fences : Nat → Bool
  slotQueues : Nat → DeletionQueue EngineClosure
  deletion_queue : DeletionQueue EngineClosure
  destroyed : List Nat
  next_handle : Nat

/-- Execution of a registered closure against the live engine state.  The
cleanup closure appended by `init_swapchain` captures `m_swapchain` and
`m_device` by reference and `this_generation` by value:
`if (m_swapchain.generation == this_generation)` it destroys every current
image view and then the swapchain handle, otherwise it does nothing. -/
def runEngineClosure : EngineClosure → EngineState → EngineState
  | EngineClosure.swapchainCleanup this_generation, st =>
    if st.swapchain.generation = this_generation then
      { st with destroyed :=
          st.destroyed ++ st.swapchain.image_views ++ [st.swapchain.swapchain] }
    else st

/-- Set the signaled-state of the fence of one frame slot. -/
def setFence (st : EngineState) (idx : Nat) (b : Bool) : EngineState :=
  { st with fences := fun j => if j = idx then b else st.fences j }

/-- Call `frame.deletion_queue.delete_all()`: execute the slot's queued closures
in reverse insertion order against the live state and clear that queue. -/
def flushSlotQueue (st : EngineState) (idx : Nat) : EngineState :=
  let order := (DeletionQueue.delete_all (st.slotQueues idx)).1
  let st1 := runClosures runEngineClosure order st
  { st1 with slotQueues := fun j => if j = idx then [] else st1.slotQueues j }

/-- Environment for `init_swapchain`: whether the vkb swapchain build
succeeds and how many images the chain has. -/
structure SwapchainBuildEnv where
  build_ok : Bool
  image_count : Nat

/-- Model of `Engine::init_swapchain`: build the swapchain (failure returns false
with nothing changed); on success store the new handle, images and views,
read `this_generation = m_swapchain.generation`, and append to
`m_deletion_queue` the generation-guarded cleanup closure. -/
def init_swapchain (env : SwapchainBuildEnv) (st : EngineState) :
    Bool × EngineState × List Event :=
  if env.build_ok then
    let h := st.next_handle
    let imgs := (List.range env.image_count).map (fun i => h + 1 + i)
    let sc : Swapchain :=
      { generation := st.swapchain.generation
        swapchain := h
        images := imgs
        image_views := imgs }
    let this_generation := sc.generation
    (true,
      { st with
          swapchain := sc
          next_handle := h + 1 + env.image_count
          deletion_queue :=
            st.deletion_queue.add (EngineClosure.swapchainCleanup this_generation) },
      [Event.createSwapchain h])
  else (false, st, [])

/-- Model of `Engine::refresh_swapchain`: `vkDeviceWaitIdle`, destroy every current
image view and the swapchain handle immediately, increment the generation
counter, and call `init_swapchain` again, returning its result. -/
def refresh_swapchain (env : SwapchainBuildEnv) (st : EngineState) :
    Bool × EngineState × List Event :=
  let tr0 : List Event :=
    Event.deviceWaitIdle ::
      (st.swapchain.image_views.map Event.destroyImageView ++
        [Event.destroySwapchain st.swapchain.swapchain])
  let st1 : EngineState :=
    { st with
        destroyed := st.destroyed ++ st.swapchain.image_views ++ [st.swapchain.swapchain]
        swapchain := { st.swapchain with generation := st.swapchain.generation + 1 } }
  let r := init_swapchain env st1
  (r.1, r.2.1, tr0 ++ r.2.2)

/-- Results of the native calls made during one frame
(start_frame/finish_frame). -/
structure FrameEnv where
  wait_result : VkResult
  reset_fences_result : VkResult
  acquire_result : VkResult
  reset_cmd_result : VkResult
  begin_cmd_result : VkResult
  end_cmd_result : VkResult
  submit_result : VkResult
  present_result : VkResult

/-- Model of `Engine::start_frame`: wait on the slot's fence with UINT64_MAX timeout,
reset the fence, flush the slot's private deletion queue, acquire the next
swapchain image (UINT64_MAX timeout), reset and begin the slot's command
buffer.  Every failing call makes the function return false via `VKERR`. -/
def start_frame (env : FrameEnv) (st : EngineState) :
    Bool × EngineState × List Event :=
  let idx := st.frame_idx
  let tr1 : List Event := [Event.waitFences (ChanId.frame idx) UINT64_MAX]
  if env.wait_result = VkResult.success then
    let tr2 := tr1 ++ [Event.resetFences (ChanId.frame idx)]
    if env.reset_fences_result = VkResult.success then
      let st2 := flushSlotQueue (setFence st idx false) idx
      let tr4 := tr2 ++ [Event.slotQueueFlushed idx, Event.acquireNextImage UINT64_MAX]
      if env.acquire_result = VkResult.success then
        let tr5 := tr4 ++ [Event.resetCommandBuffer (ChanId.frame idx)]
        if env.reset_cmd_result = VkResult.success then
          let tr6 := tr5 ++ [Event.beginCommandBuffer (ChanId.frame idx)]
          if env.begin_cmd_result = VkResult.success then (true, st2, tr6)
          else (false, st2, tr6)
        else (false, st2, tr5)
      else (false, st2, tr4)
    else (false, st, tr2)
  else (false, st, tr1)

/-- Model of `Engine::finish_frame`: end the slot's command buffer, submit it waiting
on the render semaphore and signaling the present semaphore with the slot's
fence attached, present; if presenting reports anything but success call
`refresh_swapchain` (returning false only if that fails); finally advance
`m_frame_idx = (m_frame_idx + 1) % NUM_FRAMES_IN_FLIGHT` and return true. -/
def finish_frame (senv : SwapchainBuildEnv) (env : FrameEnv) (st : EngineState) :
    Bool × EngineState × List Event :=
  let idx := st.frame_idx
  let tr1 : List Event := [Event.endCommandBuffer (ChanId.frame idx)]
  if env.end_cmd_result = VkResult.success then
    let tr2 := tr1 ++ [Event.queueSubmit 1 1 (ChanId.frame idx)]
    if env.submit_result = VkResult.success then
      let st1 := setFence st idx true
      let tr3 := tr2 ++ [Event.queuePresent idx]
      if env.present_result = VkResult.success then
        (true, { st1 with frame_idx := (st1.frame_idx + 1) % NUM_FRAMES_IN_FLIGHT }, tr3)
      else
        let r := refresh_swapchain senv st1
        if r.1 then
          (true,
            { r.2.1 with frame_idx := (r.2.1.frame_idx + 1) % NUM_FRAMES_IN_FLIGHT },
            tr3 ++ r.2.2)
        else (false, r.2.1, tr3 ++ r.2.2)
    else (false, st, tr2)
  else (false, st, tr1)

/-- Results of the native calls made by `Engine::immediate_submit`. -/
structure ImmediateEnv where
  reset_fence_result : VkResult
  reset_cmd_result : VkResult
  begin_cmd_result : VkResult
  end_cmd_result : VkResult
  submit_result : VkResult
  wait_result : VkResult

/-- Model of `Engine::immediate_submit(f)`: reset the immediate fence, reset and
begin the dedicated command buffer, invoke `f` on it (modelled as the list
of commands it records), end the buffer, submit with zero wait and zero
signal semaphores and the immediate fence attached, and block on that fence
with UINT64_MAX timeout; success is returned only after the wait. -/
def immediate_submit (env : ImmediateEnv) (record : List Nat) (st : EngineState) :
    Bool × EngineState × List Event :=
  let tr1 : List Event := [Event.resetFences ChanId.imm]
  if env.reset_fence_result = VkResult.success then
    let tr2 := tr1 ++ [Event.resetCommandBuffer ChanId.imm]
    if env.reset_cmd_result = VkResult.success then
      let tr3 := tr2 ++ [Event.beginCommandBuffer ChanId.imm]
      if env.begin_cmd_result = VkResult.success then
        let tr5 := tr3 ++ record.map (Event.recordCommand ChanId.imm) ++
          [Event.endCommandBuffer ChanId.imm]
        if env.end_cmd_result = VkResult.success then
          let tr6 := tr5 ++ [Event.queueSubmit 0 0 ChanId.imm]
          if env.submit_result = VkResult.success then
            let tr7 := tr6 ++ [Event.waitFences ChanId.imm UINT64_MAX]
            if env.wait_result = VkResult.success then (true, st, tr7)
            else (false, st, tr7)
          else (false, st, tr6)
        else (false, st, tr5)
      else (false, st, tr3)
    else (false, st, tr2)
  else (false, st, tr1)

/-! ## Image creation (Engine::create_image and GPUImage::allocate)

Both operations call `vmaCreateImage` and then `vkCreateImageView`.  The
trace records the allocations performed (an event is emitted only when the
corresponding native call succeeds). -/

/-- Results of the two native calls made during image creation. -/
structure ImageEnv where
  create_image_result : VkResult
  create_view_result : VkResult

/-- Allocation-level events of the image-creation operations. -/
inductive AllocEvent where
  | vmaCreateImage (h : Nat)
  | vmaDestroyImage (h : Nat)
  | createImageView (h : Nat)
  deriving DecidableEq

/-- Net number of live image allocations produced by a trace. -/
def netImageAllocations (tr : List AllocEvent) : Int :=
  (tr.countP fun e => match e with | AllocEvent.vmaCreateImage _ => true | _ => false : Int) -
    (tr.countP fun e => match e with | AllocEvent.vmaDestroyImage _ => true | _ => false : Int)

/-- Model of `Engine::create_image`: `VKERR(vmaCreateImage(...))`; then if
`vkCreateImageView` fails, `vmaDestroyImage` is called on the
already-created image before returning false. -/
def Engine.create_image (env : ImageEnv) : Bool × List AllocEvent :=
  if env.create_image_result = VkResult.success then
    if env.create_view_result = VkResult.success then
      (true, [AllocEvent.vmaCreateImage 0, AllocEvent.createImageView 1])
    else
      (false, [AllocEvent.vmaCreateImage 0, AllocEvent.vmaDestroyImage 0])
  else (false, [])

/-- Model of `GPUImage::allocate` (gpu.hpp): `VKERR(vmaCreateImage(...))`; then
`VKERR(vkCreateImageView(...))` — on view failure it returns false directly,
without destroying the already-created image allocation. -/
def GPUImage.allocate (env : ImageEnv) : Bool × List AllocEvent :=
  if env.create_image_result = VkResult.success then
    if env.create_view_result = VkResult.success then
      (true, [AllocEvent.vmaCreateImage 0, AllocEvent.createImageView 1])
    else
      (false, [AllocEvent.vmaCreateImage 0])
  else (false, [])

/-! ## App loop body (src/app.cpp, App::run) -/

/-- The window events the loop body distinguishes. -/
inductive AppEvent where
  | quit
  | windowResized
  | windowMinimized
  | windowRestored
  | otherEvent
  deriving DecidableEq

/-- App-level state: the engine plus the `m_disable_render` flag. -/
structure AppState where
  engine : EngineState
  disable_render : Bool

/-- The event-handling chain at the top of `App::run`'s loop body: quit
returns from the loop; a resize calls `refresh_swapchain` (breaking out of
the loop if that fails); a minimize sets `m_disable_render`; a restore
clears it.  The boolean is true when the loop terminates now. -/
def App.processWindowEvent (senv : SwapchainBuildEnv) (st : AppState)
    (ev : Option AppEvent) : AppState × Bool :=
  match ev with
  | some AppEvent.quit => (st, true)
  | some AppEvent.windowResized =>
    let r := refresh_swapchain senv st.engine
    ({ st with engine := r.2.1 }, !r.1)
  | some AppEvent.windowMinimized => ({ st with disable_render := true }, false)
  | some AppEvent.windowRestored => ({ st with disable_render := false }, false)
  | some AppEvent.otherEvent => (st, false)
  | none => (st, false)

/-- Model of `App::render_frame` reduced to its engine interactions:
`start_frame` then, if that succeeded, `finish_frame`. -/
def render_frame (senv : SwapchainBuildEnv) (fenv : FrameEnv) (st : EngineState) :
    Bool × EngineState × List Event :=
  let r1 := start_frame fenv st
  if r1.1 then
    let r2 := finish_frame senv fenv r1.2.1
    (r2.1, r2.2.1, r1.2.2 ++ r2.2.2)
  else (false, r1.2.1, r1.2.2)

/-- One iteration of `App::run`'s while loop: handle the polled event; if
`m_disable_render` is set, `SDL_Delay(100); continue;` without rendering;
otherwise call `render_frame` (a failure ends the loop).  Returns the state
at the end of the body, whether `render_frame` ran, and whether the loop
continues. -/
def App.runIteration (senv : SwapchainBuildEnv) (fenv : FrameEnv) (st : AppState)
    (ev : Option AppEvent) : AppState × Bool × Bool :=
  let p := App.processWindowEvent senv st ev
  if p.2 then (p.1, false, false)
  else if p.1.disable_render then (p.1, false, true)
  else
    let r := render_frame senv fenv p.1.engine
    ({ p.1 with engine := r.2.1 }, true, r.1)

/-! ## Helper lemmas -/

theorem runEngineClosure_frame_idx (c : EngineClosure) (st : EngineState) :
    (runEngineClosure c st).frame_idx = st.frame_idx := by
  cases c with
  | swapchainCleanup g =>
    simp only [runEngineClosure]
    split <;> rfl

theorem runEngineClosure_fences (c : EngineClosure) (st : EngineState) :
    (runEngineClosure c st).fences = st.fences := by
  cases c with
  | swapchainCleanup g =>
    simp only [runEngineClosure]
    split <;> rfl

theorem runClosures_frame_idx (order : List EngineClosure) (st : EngineState) :
    (runClosures runEngineClosure order st).frame_idx = st.frame_idx := by
  induction order generalizing st with
  | nil => rfl
  | cons c cs ih =>
    show (runClosures runEngineClosure cs (runEngineClosure c st)).frame_idx = st.frame_idx
    rw [ih, runEngineClosure_frame_idx]

theorem flushSlotQueue_frame_idx (st : EngineState) (idx : Nat) :
    (flushSlotQueue st idx).frame_idx = st.frame_idx := by
  unfold flushSlotQueue
  exact runClosures_frame_idx _ st

theorem setFence_frame_idx (st : EngineState) (idx : Nat) (b : Bool) :
    (setFence st idx b).frame_idx = st.frame_idx := rfl

theorem init_swapchain_frame_idx (env : SwapchainBuildEnv) (st : EngineState) :
    (init_swapchain env st).2.1.frame_idx = st.frame_idx := by
  unfold init_swapchain
  split <;> rfl

theorem init_swapchain_generation (env : SwapchainBuildEnv) (st : EngineState) :
    (init_swapchain env st).2.1.swapchain.generation = st.swapchain.generation := by
  unfold init_swapchain
  split <;> rfl

theorem init_swapchain_result (env : SwapchainBuildEnv) (st : EngineState) :
    (init_swapchain env st).1 = env.build_ok := by
  unfold init_swapchain
  split <;> simp_all

theorem init_swapchain_destroyed (env : SwapchainBuildEnv) (st : EngineState) :
    (init_swapchain env st).2.1.destroyed = st.destroyed := by
  unfold init_swapchain
  split <;> rfl

theorem init_swapchain_fences (env : SwapchainBuildEnv) (st : EngineState) :
    (init_swapchain env st).2.1.fences = st.fences := by
  unfold init_swapchain
  split <;> rfl

theorem refresh_swapchain_frame_idx (env : SwapchainBuildEnv) (st : EngineState) :
    (refresh_swapchain env st).2.1.frame_idx = st.frame_idx := by
  unfold refresh_swapchain
  exact init_swapchain_frame_idx env _

theorem refresh_swapchain_generation (env : SwapchainBuildEnv) (st : EngineState) :
    (refresh_swapchain env st).2.1.swapchain.generation =
      st.swapchain.generation + 1 := by
  unfold refresh_swapchain
  exact init_swapchain_generation env _

theorem refresh_swapchain_result (env : SwapchainBuildEnv) (st : EngineState) :
    (refresh_swapchain env st).1 = env.build_ok := by
  unfold refresh_swapchain
  exact init_swapchain_result env _

theorem start_frame_frame_idx (env : FrameEnv) (st : EngineState) :
    (start_frame env st).2.1.frame_idx = st.frame_idx := by
  by_cases h1 : env.wait_result = VkResult.success <;>
    by_cases h2 : env.reset_fences_result = VkResult.success <;>
      by_cases h3 : env.acquire_result = VkResult.success <;>
        by_cases h4 : env.reset_cmd_result = VkResult.success <;>
          by_cases h5 : env.begin_cmd_result = VkResult.success <;>
            simp [start_frame, h1, h2, h3, h4, h5, flushSlotQueue_frame_idx, setFence]

theorem start_frame_trace_head (env : FrameEnv) (st : EngineState) :
    ((start_frame env st).2.2).head? =
      some (Event.waitFences (ChanId.frame st.frame_idx) UINT64_MAX) := by
  by_cases h1 : env.wait_result = VkResult.success <;>
    by_cases h2 : env.reset_fences_result = VkResult.success <;>
      by_cases h3 : env.acquire_result = VkResult.success <;>
        by_cases h4 : env.reset_cmd_result = VkResult.success <;>
          by_cases h5 : env.begin_cmd_result = VkResult.success <;>
            simp [start_frame, h1, h2, h3, h4, h5]

theorem finish_frame_frame_idx_true (senv : SwapchainBuildEnv) (env : FrameEnv)
    (st : EngineState) (h : (finish_frame senv env st).1 = true) :
    (finish_frame senv env st).2.1.frame_idx =
      (st.frame_idx + 1) % NUM_FRAMES_IN_FLIGHT := by
  by_cases h1 : env.end_cmd_result = VkResult.success
  · by_cases h2 : env.submit_result = VkResult.success
    · by_cases h3 : env.present_result = VkResult.success
      · simp [finish_frame, h1, h2, h3, setFence]
      · cases h4 : senv.build_ok
        · exfalso
          simp [finish_frame, h1, h2, h3, refresh_swapchain_result, h4] at h
        · simp [finish_frame, h1, h2, h3, refresh_swapchain_result, h4,
            refresh_swapchain_frame_idx, setFence]
    · exfalso; simp [finish_frame, h1, h2] at h
  · exfalso; simp [finish_frame, h1] at h

theorem finish_frame_frame_idx_false (senv : SwapchainBuildEnv) (env : FrameEnv)
    (st : EngineState) (h : (finish_frame senv env st).1 = false) :
    (finish_frame senv env st).2.1.frame_idx = st.frame_idx := by
  by_cases h1 : env.end_cmd_result = VkResult.success
  · by_cases h2 : env.submit_result = VkResult.success
    · by_cases h3 : env.present_result = VkResult.success
      · exfalso; simp [finish_frame, h1, h2, h3] at h
      · cases h4 : senv.build_ok
        · simp [finish_frame, h1, h2, h3, refresh_swapchain_result, h4,
            refresh_swapchain_frame_idx, setFence]
        · exfalso
          simp [finish_frame, h1, h2, h3, refresh_swapchain_result, h4] at h
    · simp [finish_frame, h1, h2]
  · simp [finish_frame, h1]

theorem render_frame_frame_idx_true (senv : SwapchainBuildEnv) (fenv : FrameEnv)
    (st : EngineState) (h : (render_frame senv fenv st).1 = true) :
    (render_frame senv fenv st).2.1.frame_idx =
      (st.frame_idx + 1) % NUM_FRAMES_IN_FLIGHT := by
  simp only [render_frame] at h ⊢
  by_cases h1 : (start_frame fenv st).1 = true
  · rw [if_pos h1] at h ⊢
    rw [finish_frame_frame_idx_true _ _ _ h, start_frame_frame_idx]
  · rw [if_neg h1] at h
    simp at h

theorem refresh_swapchain_waitIdle_mem (env : SwapchainBuildEnv) (st : EngineState) :
    Event.deviceWaitIdle ∈ (refresh_swapchain env st).2.2 := by
  simp [refresh_swapchain]

/-! ## Claim theorems -/

/-- C1.  Generation guard correctness: the swapchain deletion-queue closure
captures the generation current at append time and destroys the views and
handle only while the live generation still equals it; an entry enqueued
between two calls to `refresh_swapchain` (capturing the generation live in
that window) is a complete no-op when run after the second call — the state,
and in particular the destroyed-handle trace, is unchanged, so nothing of
the second recreation's swapchain is destroyed.  The final conjunct shows
the guard is not vacuous: while the captured generation is still live the
closure does destroy the current views and handle. -/
theorem generation_guard_makes_stale_entry_noop (st : EngineState)
    (env1 env2 : SwapchainBuildEnv) :
    runEngineClosure
        (EngineClosure.swapchainCleanup
          (refresh_swapchain env1 st).2.1.swapchain.generation)
        (refresh_swapchain env2 (refresh_swapchain env1 st).2.1).2.1 =
      (refresh_swapchain env2 (refresh_swapchain env1 st).2.1).2.1 ∧
    (runEngineClosure
        (EngineClosure.swapchainCleanup
          (refresh_swapchain env1 st).2.1.swapchain.generation)
        (refresh_swapchain env2 (refresh_swapchain env1 st).2.1).2.1).destroyed =
      (refresh_swapchain env2 (refresh_swapchain env1 st).2.1).2.1.destroyed ∧
    ∀ s : EngineState,
      (runEngineClosure (EngineClosure.swapchainCleanup s.swapchain.generation)
          s).destroyed =
        s.destroyed ++ s.swapchain.image_views ++ [s.swapchain.swapchain] := by
  have h2 := refresh_swapchain_generation env2 (refresh_swapchain env1 st).2.1
  refine ⟨?_, ?_, ?_⟩
  · simp only [runEngineClosure]
    rw [if_neg (by omega)]
  · simp only [runEngineClosure]
    rw [if_neg (by omega)]
  · intro s
    simp [runEngineClosure]

/-- C7.  Swapchain recreation steps: `refresh_swapchain` first waits for GPU
idle, then immediately destroys every current image view and the swapchain
handle (they appear in the destroyed-trace, and the deferred queue gains
nothing beyond the guarded entry that the renewed `init_swapchain` appends),
then increments the generation counter by exactly one, and finally re-runs
swapchain creation, whose result it returns. -/
theorem refresh_swapchain_recreation_steps (env : SwapchainBuildEnv)
    (st : EngineState) :
    (refresh_swapchain env st).2.2 =
        Event.deviceWaitIdle ::
          (st.swapchain.image_views.map Event.destroyImageView ++
            [Event.destroySwapchain st.swapchain.swapchain] ++
            (if env.build_ok then [Event.createSwapchain st.next_handle] else [])) ∧
      (refresh_swapchain env st).2.1.destroyed =
        st.destroyed ++ st.swapchain.image_views ++ [st.swapchain.swapchain] ∧
      (refresh_swapchain env st).2.1.deletion_queue =
        (if env.build_ok then
          st.deletion_queue.add
            (EngineClosure.swapchainCleanup (st.swapchain.generation + 1))
         else st.deletion_queue) ∧
      (refresh_swapchain env st).2.1.swapchain.generation =
        st.swapchain.generation + 1 ∧
      (refresh_swapchain env st).1 = env.build_ok := by
  cases hb : env.build_ok <;>
    simp [refresh_swapchain, init_swapchain, hb, DeletionQueue.add]

/-- C3.  Frame-slot fence gating: the very first native call of
`start_frame` is the wait on the current slot's fence with the unbounded
`UINT64_MAX` timeout (so recording is never begun before it), a failed wait
makes `start_frame` return immediately with nothing else done, a successful
`finish_frame` attaches the same slot's fence to its submission, and with
`NUM_FRAMES_IN_FLIGHT = 2` two successful frames return the round-robin
index to its starting slot, so frame k+2 reuses — and therefore fence-waits
on — frame k's slot. -/
theorem frame_slot_fence_gating (env : FrameEnv) (st : EngineState)
    (senv1 senv2 : SwapchainBuildEnv) (fenv1 fenv2 : FrameEnv) :
    ((start_frame env st).2.2).head? =
        some (Event.waitFences (ChanId.frame st.frame_idx) UINT64_MAX) ∧
      (env.wait_result ≠ VkResult.success →
        start_frame env st =
          (false, st, [Event.waitFences (ChanId.frame st.frame_idx) UINT64_MAX])) ∧
      ((finish_frame senv1 fenv1 st).1 = true →
        Event.queueSubmit 1 1 (ChanId.frame st.frame_idx) ∈
          (finish_frame senv1 fenv1 st).2.2) ∧
      (st.frame_idx < NUM_FRAMES_IN_FLIGHT →
        (render_frame senv1 fenv1 st).1 = true →
        (render_frame senv2 fenv2 (render_frame senv1 fenv1 st).2.1).1 = true →
        (render_frame senv2 fenv2 (render_frame senv1 fenv1 st).2.1).2.1.frame_idx =
          st.frame_idx) := by
  refine ⟨start_frame_trace_head env st, ?_, ?_, ?_⟩
  · intro hw
    simp only [start_frame]
    rw [if_neg hw]
  · intro h
    by_cases h1 : fenv1.end_cmd_result = VkResult.success
    · by_cases h2 : fenv1.submit_result = VkResult.success
      · by_cases h3 : fenv1.present_result = VkResult.success
        · simp [finish_frame, h1, h2, h3]
        · cases h4 : senv1.build_ok
          · exfalso
            simp [finish_frame, h1, h2, h3, refresh_swapchain_result, h4] at h
          · simp [finish_frame, h1, h2, h3, refresh_swapchain_result, h4]
      · exfalso; simp [finish_frame, h1, h2] at h
    · exfalso; simp [finish_frame, h1] at h
  · intro hidx hr1 hr2
    rw [render_frame_frame_idx_true _ _ _ hr2,
      render_frame_frame_idx_true _ _ _ hr1]
    simp only [NUM_FRAMES_IN_FLIGHT] at hidx ⊢
    omega

/-- C9.  Frame-index invariant: `start_frame` never changes the frame-slot
index; `finish_frame` advances it by exactly one modulo
`NUM_FRAMES_IN_FLIGHT` exactly on its success path and leaves it unchanged
on every error return; both operations keep the index inside
`[0, NUM_FRAMES_IN_FLIGHT)`. -/
theorem frame_index_invariant (senv : SwapchainBuildEnv) (env : FrameEnv)
    (st : EngineState) :
    (start_frame env st).2.1.frame_idx = st.frame_idx ∧
      ((finish_frame senv env st).1 = true →
        (finish_frame senv env st).2.1.frame_idx =
          (st.frame_idx + 1) % NUM_FRAMES_IN_FLIGHT) ∧
      ((finish_frame senv env st).1 = false →
        (finish_frame senv env st).2.1.frame_idx = st.frame_idx) ∧
      (st.frame_idx < NUM_FRAMES_IN_FLIGHT →
        (start_frame env st).2.1.frame_idx < NUM_FRAMES_IN_FLIGHT ∧
          (finish_frame senv env st).2.1.frame_idx < NUM_FRAMES_IN_FLIGHT) := by
  refine ⟨start_frame_frame_idx env st,
    finish_frame_frame_idx_true senv env st,
    finish_frame_frame_idx_false senv env st, ?_⟩
  intro hlt
  refine ⟨by rw [start_frame_frame_idx]; exact hlt, ?_⟩
  cases hres : (finish_frame senv env st).1
  · rw [finish_frame_frame_idx_false senv env st hres]; exact hlt
  · rw [finish_frame_frame_idx_true senv env st hres]
    exact Nat.mod_lt _ (by decide)

/-! ## Concrete fixtures for witnesses and counterexamples -/

def senvOk : SwapchainBuildEnv :=
  { build_ok := true, image_count := 2 }

def fenvOk : FrameEnv :=
  { wait_result := VkResult.success
    reset_fences_result := VkResult.success
    acquire_result := VkResult.success
    reset_cmd_result := VkResult.success
    begin_cmd_result := VkResult.success
    end_cmd_result := VkResult.success
    submit_result := VkResult.success
    present_result := VkResult.success }

def fenvAcquireOutOfDate : FrameEnv :=
  { fenvOk with acquire_result := VkResult.errorOutOfDateKHR }

def fenvPresentOutOfDate : FrameEnv :=
  { fenvOk with present_result := VkResult.errorOutOfDateKHR }

def immOk : ImmediateEnv :=
  { reset_fence_result := VkResult.success
    reset_cmd_result := VkResult.success
    begin_cmd_result := VkResult.success
    end_cmd_result := VkResult.success
    submit_result := VkResult.success
    wait_result := VkResult.success }

def sc0 : Swapchain :=
  { generation := 0, swapchain := 1, images := [2, 3], image_views := [4, 5] }

def st0 : EngineState :=
  { swapchain := sc0
    frame_idx := 0
    fences := fun _ => true
    slotQueues := fun _ => []
    deletion_queue := []
    destroyed := []
    next_handle := 6 }

def app0 : AppState :=
  { engine := st0, disable_render := false }

def envViewFail : ImageEnv :=
  { create_image_result := VkResult.success
    create_view_result := VkResult.errorDeviceLost }

/-- C4 (as frozen) is falsified at acquire time: with every call before the
acquire succeeding and `vkAcquireNextImageKHR` reporting out-of-date,
`start_frame` returns the error to its caller and its trace contains no
recreation step at all (no idle wait, no destruction, no creation) — the
trace is exactly wait/reset/flush/acquire. -/
theorem acquire_out_of_date_surfaced_counterexample :
    (start_frame fenvAcquireOutOfDate st0).1 = false ∧
      (start_frame fenvAcquireOutOfDate st0).2.2 =
        [Event.waitFences (ChanId.frame 0) UINT64_MAX,
          Event.resetFences (ChanId.frame 0),
          Event.slotQueueFlushed 0,
          Event.acquireNextImage UINT64_MAX] ∧
      Event.deviceWaitIdle ∉ (start_frame fenvAcquireOutOfDate st0).2.2 := by
  refine ⟨rfl, rfl, ?_⟩
  decide

/-- C4 amended: only at present time is an out-of-date swapchain handled by
transparent recreation — `finish_frame` calls the recreation routine and
still returns success (when the rebuild itself succeeds); at acquire time an
out-of-date result makes `start_frame` return the error to the caller and
trigger no recreation. -/
theorem out_of_date_transparent_on_present_only (senv : SwapchainBuildEnv)
    (env : FrameEnv) (st : EngineState) :
    (env.end_cmd_result = VkResult.success →
      env.submit_result = VkResult.success →
      env.present_result = VkResult.errorOutOfDateKHR →
      senv.build_ok = true →
        (finish_frame senv env st).1 = true ∧
          Event.deviceWaitIdle ∈ (finish_frame senv env st).2.2) ∧
      (env.wait_result = VkResult.success →
        env.reset_fences_result = VkResult.success →
        env.acquire_result = VkResult.errorOutOfDateKHR →
          (start_frame env st).1 = false ∧
            Event.deviceWaitIdle ∉ (start_frame env st).2.2 ∧
            ∀ h : Nat, Event.createSwapchain h ∉ (start_frame env st).2.2) := by
  constructor
  · intro h1 h2 h3 h4
    constructor
    · simp [finish_frame, h1, h2, h3, refresh_swapchain_result, h4]
    · simp [finish_frame, h1, h2, h3, refresh_swapchain_result, h4,
        refresh_swapchain_waitIdle_mem]
  · intro hw hr ha
    refine ⟨?_, ?_, ?_⟩
    · simp [start_frame, hw, hr, ha]
    · simp [start_frame, hw, hr, ha]
    · intro h
      simp [start_frame, hw, hr, ha]

/-- C4 amended claim at a concrete input: present-time out-of-date with a
successful rebuild yields a successful frame whose trace contains the idle
wait of the recreation. -/
theorem out_of_date_transparent_witness :
    (finish_frame senvOk fenvPresentOutOfDate st0).1 = true ∧
      Event.deviceWaitIdle ∈ (finish_frame senvOk fenvPresentOutOfDate st0).2.2 :=
  (out_of_date_transparent_on_present_only senvOk fenvPresentOutOfDate st0).1
    rfl rfl rfl rfl

/-- C5 (as frozen) is falsified on `GPUImage::allocate`: with the image
allocation succeeding and view creation failing it returns the error while
the trace shows the allocation was never released — one net live
allocation, not zero. -/
theorem image_rollback_counterexample :
    (GPUImage.allocate envViewFail).1 = false ∧
      (GPUImage.allocate envViewFail).2 = [AllocEvent.vmaCreateImage 0] ∧
      netImageAllocations (GPUImage.allocate envViewFail).2 ≠ 0 := by
  decide

/-- C5 amended: `Engine::create_image` releases the already-succeeded image
allocation (`vmaDestroyImage`) before returning the view-creation error,
leaving zero net allocations; the earlier `GPUImage::allocate` helper
returns the same error without releasing, leaving one net allocation. -/
theorem image_rollback_on_view_failure (env : ImageEnv) :
    (env.create_image_result = VkResult.success →
      env.create_view_result ≠ VkResult.success →
        Engine.create_image env =
          (false, [AllocEvent.vmaCreateImage 0, AllocEvent.vmaDestroyImage 0]) ∧
          netImageAllocations (Engine.create_image env).2 = 0) ∧
      (env.create_image_result = VkResult.success →
        env.create_view_result ≠ VkResult.success →
          GPUImage.allocate env = (false, [AllocEvent.vmaCreateImage 0]) ∧
            netImageAllocations (GPUImage.allocate env).2 = 1) := by
  constructor
  · intro h1 h2
    have he : Engine.create_image env =
        (false, [AllocEvent.vmaCreateImage 0, AllocEvent.vmaDestroyImage 0]) := by
      simp [Engine.create_image, h1, h2]
    exact ⟨he, by rw [he]; decide⟩
  · intro h1 h2
    have hg : GPUImage.allocate env = (false, [AllocEvent.vmaCreateImage 0]) := by
      simp [GPUImage.allocate, h1, h2]
    exact ⟨hg, by rw [hg]; decide⟩

/-- C5 amended claim at a concrete input. -/
theorem image_rollback_on_view_failure_witness :
    Engine.create_image envViewFail =
        (false, [AllocEvent.vmaCreateImage 0, AllocEvent.vmaDestroyImage 0]) ∧
      netImageAllocations (Engine.create_image envViewFail).2 = 0 :=
  (image_rollback_on_view_failure envViewFail).1 rfl (by decide)

theorem getLast?_append_last {α : Type} (l : List α) (a : α) :
    (l ++ [a]).getLast? = some a := by
  rw [List.getLast?_append_cons]
  rfl

theorem immediate_submit_trace_after_submit (env : ImmediateEnv)
    (record : List Nat) (st : EngineState)
    (h1 : env.reset_fence_result = VkResult.success)
    (h2 : env.reset_cmd_result = VkResult.success)
    (h3 : env.begin_cmd_result = VkResult.success)
    (h4 : env.end_cmd_result = VkResult.success)
    (h5 : env.submit_result = VkResult.success) :
    (immediate_submit env record st).2.2 =
      ([Event.resetFences ChanId.imm] ++ [Event.resetCommandBuffer ChanId.imm] ++
          [Event.beginCommandBuffer ChanId.imm] ++
          record.map (Event.recordCommand ChanId.imm) ++
          [Event.endCommandBuffer ChanId.imm] ++ [Event.queueSubmit 0 0 ChanId.imm]) ++
        [Event.waitFences ChanId.imm UINT64_MAX] := by
  simp only [immediate_submit, h1, h2, h3, h4, h5, if_true]
  split <;> simp

/-- C6.  Immediate-submission protocol: when every native call succeeds,
`immediate_submit` performs, in this exact order, the fence reset, the reset
and begin of the dedicated command buffer, the caller-supplied recording,
the end of the buffer, a submission with zero wait and zero signal
semaphores gated only by the immediate fence, and the unbounded blocking
wait on that fence; and whenever it returns success, the fence wait is the
last call it made. -/
theorem immediate_submit_protocol (env : ImmediateEnv) (record : List Nat)
    (st : EngineState) :
    (env.reset_fence_result = VkResult.success →
      env.reset_cmd_result = VkResult.success →
      env.begin_cmd_result = VkResult.success →
      env.end_cmd_result = VkResult.success →
      env.submit_result = VkResult.success →
      env.wait_result = VkResult.success →
        immediate_submit env record st =
          (true, st,
            [Event.resetFences ChanId.imm, Event.resetCommandBuffer ChanId.imm,
                Event.beginCommandBuffer ChanId.imm] ++
              record.map (Event.recordCommand ChanId.imm) ++
              [Event.endCommandBuffer ChanId.imm, Event.queueSubmit 0 0 ChanId.imm,
                Event.waitFences ChanId.imm UINT64_MAX])) ∧
      ((immediate_submit env record st).1 = true →
        ((immediate_submit env record st).2.2).getLast? =
          some (Event.waitFences ChanId.imm UINT64_MAX)) := by
  constructor
  · intro h1 h2 h3 h4 h5 h6
    simp [immediate_submit, h1, h2, h3, h4, h5, h6]
  · intro h
    by_cases h1 : env.reset_fence_result = VkResult.success
    · by_cases h2 : env.reset_cmd_result = VkResult.success
      · by_cases h3 : env.begin_cmd_result = VkResult.success
        · by_cases h4 : env.end_cmd_result = VkResult.success
          · by_cases h5 : env.submit_result = VkResult.success
            · rw [immediate_submit_trace_after_submit env record st h1 h2 h3 h4 h5]
              exact getLast?_append_last _ _
            · exfalso; simp [immediate_submit, h1, h2, h3, h4, h5] at h
          · exfalso; simp [immediate_submit, h1, h2, h3, h4] at h
        · exfalso; simp [immediate_submit, h1, h2, h3] at h
      · exfalso; simp [immediate_submit, h1, h2] at h
    · exfalso; simp [immediate_submit, h1] at h

/-- C6 at a concrete input: the full success-path call sequence. -/
theorem immediate_submit_protocol_witness :
    immediate_submit immOk [7, 8] st0 =
      (true, st0,
        [Event.resetFences ChanId.imm, Event.resetCommandBuffer ChanId.imm,
            Event.beginCommandBuffer ChanId.imm] ++
          [7, 8].map (Event.recordCommand ChanId.imm) ++
          [Event.endCommandBuffer ChanId.imm, Event.queueSubmit 0 0 ChanId.imm,
            Event.waitFences ChanId.imm UINT64_MAX]) :=
  (immediate_submit_protocol immOk [7, 8] st0).1 rfl rfl rfl rfl rfl rfl

/-- C8.  Minimize/restore neutrality: a minimize event sets the
render-disable flag, that loop iteration renders nothing and leaves the
engine state untouched while keeping the loop alive; a subsequent restore
event clears the flag and again leaves the engine untouched, so the
frame-slot index and every slot's fence state equal their values from
before the minimize; and while the flag is set no event other than a
restore can lead to a frame being rendered. -/
theorem minimize_restore_neutrality (st : AppState)
    (senv1 senv2 : SwapchainBuildEnv) (fenv1 : FrameEnv) :
    (App.runIteration senv1 fenv1 st (some AppEvent.windowMinimized)).1.disable_render
        = true ∧
      (App.runIteration senv1 fenv1 st (some AppEvent.windowMinimized)).2.1 = false ∧
      (App.runIteration senv1 fenv1 st (some AppEvent.windowMinimized)).2.2 = true ∧
      (App.runIteration senv1 fenv1 st (some AppEvent.windowMinimized)).1.engine
        = st.engine ∧
      (App.processWindowEvent senv2
          (App.runIteration senv1 fenv1 st (some AppEvent.windowMinimized)).1
          (some AppEvent.windowRestored)).1.disable_render = false ∧
      (App.processWindowEvent senv2
          (App.runIteration senv1 fenv1 st (some AppEvent.windowMinimized)).1
          (some AppEvent.windowRestored)).1.engine.frame_idx
        = st.engine.frame_idx ∧
      (∀ i : Nat,
        (App.processWindowEvent senv2
            (App.runIteration senv1 fenv1 st (some AppEvent.windowMinimized)).1
            (some AppEvent.windowRestored)).1.engine.fences i
          = st.engine.fences i) ∧
      ∀ (senv : SwapchainBuildEnv) (fenv : FrameEnv) (e : EngineState)
        (ev : Option AppEvent),
        ev ≠ some AppEvent.windowRestored →
          (App.runIteration senv fenv (AppState.mk e true) ev).2.1 = false := by
  refine ⟨rfl, rfl, rfl, rfl, rfl, rfl, fun i => rfl, ?_⟩
  intro senv fenv e ev hev
  cases ev with
  | none => rfl
  | some a =>
    cases a with
    | quit => rfl
    | windowResized =>
      simp only [App.runIteration, App.processWindowEvent]
      cases hr : (refresh_swapchain senv e).1 <;> simp [hr]
    | windowMinimized => rfl
    | windowRestored => exact absurd rfl hev
    | otherEvent => rfl

/-- C8 at a concrete input: after minimize then restore the frame index is
unchanged, the fence of slot 0 is unchanged, and a quit event while
minimized renders nothing. -/
theorem minimize_restore_neutrality_witness :
    (App.processWindowEvent senvOk
        (App.runIteration senvOk fenvOk app0 (some AppEvent.windowMinimized)).1
        (some AppEvent.windowRestored)).1.engine.frame_idx
        = app0.engine.frame_idx ∧
      (App.processWindowEvent senvOk
          (App.runIteration senvOk fenvOk app0 (some AppEvent.windowMinimized)).1
          (some AppEvent.windowRestored)).1.engine.fences 0
        = app0.engine.fences 0 ∧
      (App.runIteration senvOk fenvOk (AppState.mk st0 true)
          (some AppEvent.quit)).2.1 = false :=
  ⟨(minimize_restore_neutrality app0 senvOk senvOk fenvOk).2.2.2.2.2.1,
    (minimize_restore_neutrality app0 senvOk senvOk fenvOk).2.2.2.2.2.2.1 0,
    (minimize_restore_neutrality app0 senvOk senvOk fenvOk).2.2.2.2.2.2.2
      senvOk fenvOk st0 (some AppEvent.quit) (by decide)⟩

/-- C3 at a concrete input: two fully successful frames return the
round-robin index to the starting slot. -/
theorem frame_slot_fence_gating_witness :
    (render_frame senvOk fenvOk (render_frame senvOk fenvOk st0).2.1).2.1.frame_idx
      = st0.frame_idx :=
  (frame_slot_fence_gating fenvOk st0 senvOk senvOk fenvOk fenvOk).2.2.2
    (by decide) (by rfl) (by rfl)

/-- C9 at a concrete input: a successful finish advances the index by one
modulo two and keeps it in range. -/
theorem frame_index_invariant_witness :
    (finish_frame senvOk fenvOk st0).2.1.frame_idx =
        (st0.frame_idx + 1) % NUM_FRAMES_IN_FLIGHT ∧
      (finish_frame senvOk fenvOk st0).2.1.frame_idx < NUM_FRAMES_IN_FLIGHT :=
  ⟨(frame_index_invariant senvOk fenvOk st0).2.1 rfl,
    ((frame_index_invariant senvOk fenvOk st0).2.2.2 (by decide)).2⟩

end Aurora
